import Mathlib

/-!
Verification of the YouTube earnings-estimation pipeline (`app.py`).

The pure parts of the program are embedded shallowly:
  * machine floats become exact rationals (`ℚ`);
  * Python's `round(x, 2)` becomes `round2`, decimal round-half-to-even;
  * Python's `int(x)` truncation becomes `pyInt`;
  * regular-expression search for the URL patterns becomes `searchCapture`
    over `List Char`;
  * network calls (`get_channel_id_from_handle`, the channels endpoint) are
    abstracted as oracle function parameters, and fallible code returns
    `Option` / `Except`.
-/

/-- Round-half-to-even on a rational, to an integer.  Models the tie-breaking
behaviour of Python's builtin `round` (banker's rounding): unless the value
stands exactly between two integers it agrees with ordinary rounding, and at
a tie it picks the even neighbour. -/
def rhe (x : ℚ) : ℤ :=
  if Int.fract x = 1/2 then (if Even ⌊x⌋ then ⌊x⌋ else ⌊x⌋ + 1) else round x

/-- Python's `round(x, 2)`: round-half-to-even at two decimal places. -/
def round2 (x : ℚ) : ℚ := ((rhe (x * 100) : ℤ) : ℚ) / 100

/-- Python's `int(x)` on a float: truncation toward zero. -/
def pyInt (x : ℚ) : ℤ := if x < 0 then ⌈x⌉ else ⌊x⌋

/-- The fixed message of the `ValueError` raised by the percentage range
check in `estimate_earnings`. -/
def pctRangeMsg : List Char := "Monetized percentage must be between 0 and 100".toList

/-- Stands for the message of the `ValueError` raised by a failed `float(...)`
conversion ("could not convert string to float: ...").  The embedding
abstracts string-to-float parsing: a `none` argument models an input on which
`float` raises. -/
def floatParseMsg : List Char := "could not convert string to float".toList

/-- `estimate_earnings(view_count, cpm, monetized_pct)` from `app.py`
(lines 119-132).  `cpm` and `monetized_pct` arrive as form strings and are
passed through `float`; a `none` value models a string on which `float`
raises `ValueError`, which the function catches, returning earnings `0` and
the error text.  A percentage outside `[0, 100]` raises (and catches) the
range `ValueError`.  Otherwise the earnings are
`round((view_count * (pct/100) / 1000) * cpm, 2)` with no error. -/
def estimate_earnings (view_count : ℚ) (cpm monetized_pct : Option ℚ) :
    ℚ × Option (List Char) :=
  match cpm with
  | none => (0, some floatParseMsg)
  | some c =>
    match monetized_pct with
    | none => (0, some floatParseMsg)
    | some p =>
      if 0 ≤ p ∧ p ≤ 100 then
        (round2 (view_count * (p / 100) / 1000 * c), none)
      else
        (0, some pctRangeMsg)

/-- The channel-statistics snapshot built by `get_channel_stats` (`app.py`
lines 91-102) and consumed by `index`.  The numeric fields come from
`int(...)` of upstream count strings, which are non-negative. -/
structure ChannelStats where
  title : List Char
  subscribers : ℕ
  views : ℕ
  videos : ℕ
  thumbnail : List Char
  description : List Char
  published : List Char
  channel_id : List Char
  handle : Option (List Char)
deriving DecidableEq, Repr

/-- The `result` dictionary built by `index` (`app.py` lines 181-189) on a
successful estimation. -/
structure EstimationResult where
  monthly_views : ℤ
  earnings : ℚ
  cpm : ℚ
  monetized_pct : ℚ
  daily_views : ℤ
  yearly_earnings : ℚ
deriving DecidableEq, Repr

/-- The estimation pipeline of `index` (`app.py` lines 169-189), after channel
statistics have been fetched: computes the per-video average views
`avg_views = views / max(videos, 1)`, monthly views `avg_views * 30`, calls
`estimate_earnings`, and on success builds the result record with
`int(monthly_views)`, the rounded earnings, `float(cpm)`, `float(pct)`,
`int(avg_views)` and `round(earnings * 12, 2)`.  A calculation error becomes
the page error message (`.error`).  As in `estimate_earnings`, a `none` for
`cpm`/`monetized_pct` models a form string rejected by `float`. -/
def run_estimation (stats : ChannelStats) (cpm monetized_pct : Option ℚ) :
    Except (List Char) EstimationResult :=
  let avg_views : ℚ := (stats.views : ℚ) / ((max stats.videos 1 : ℕ) : ℚ)
  let monthly_views : ℚ := avg_views * 30
  match cpm, monetized_pct with
  | some c, some p =>
    match estimate_earnings monthly_views (some c) (some p) with
    | (_, some msg) => .error msg
    | (earnings, none) =>
      .ok { monthly_views := pyInt monthly_views
            earnings := earnings
            cpm := c
            monetized_pct := p
            daily_views := pyInt avg_views
            yearly_earnings := round2 (earnings * 12) }
  | none, _ => .error floatParseMsg
  | some _, none => .error floatParseMsg

/-- The sample channel statistics of the spec's end-to-end scenarios:
1000 subscribers, 100000 total views, 50 videos. -/
def sampleStats : ChannelStats :=
  { title := "Sample".toList
    subscribers := 1000
    views := 100000
    videos := 50
    thumbnail := [], description := [], published := []
    channel_id := "UCabc123".toList
    handle := none }

/-- The character class `[a-zA-Z0-9_-]` of the URL patterns in
`extract_channel_id` (`app.py` lines 37-43). -/
def idChar (c : Char) : Bool := c.isAlphanum || c = '_' || c = '-'

/-- The greedy capture `([a-zA-Z0-9_-]+)`: the maximal run of `idChar`s at
the head of the remaining input. -/
def takeIdRun : List Char → List Char
  | [] => []
  | c :: cs => if idChar c then c :: takeIdRun cs else []

/-- `re.search` for one pattern `<marker>([a-zA-Z0-9_-]+)`: find the leftmost
position at which the literal marker occurs followed by at least one
`idChar`, and return the greedy capture group there. -/
def searchCapture (m : List Char) : List Char → Option (List Char)
  | [] => none
  | c :: cs =>
    if m.isPrefixOf (c :: cs) then
      match takeIdRun ((c :: cs).drop m.length) with
      | [] => searchCapture m cs
      | r :: rs => some (r :: rs)
    else searchCapture m cs

/-- The ordered pattern list of `extract_channel_id` (`app.py` lines 37-43):
channel-ID format, handle format, custom-URL format, legacy user format,
short-URL format. -/
def patterns : List (List Char) :=
  ["youtube.com/channel/".toList, "youtube.com/@".toList,
   "youtube.com/c/".toList, "youtube.com/user/".toList, "youtu.be/".toList]

/-- The `for pattern in patterns` loop of `extract_channel_id`: first
successful search wins. -/
def tryPatterns : List (List Char) → List Char → Option (List Char)
  | [], _ => none
  | p :: ps, url =>
    match searchCapture p url with
    | some v => some v
    | none => tryPatterns ps url

/-- `extract_channel_id(url)` from `app.py` (lines 35-49): try the five URL
patterns in order, returning the first capture, or `none` when no pattern
matches. -/
def extract_channel_id (url : List Char) : Option (List Char) :=
  tryPatterns patterns url

/-- `mismatches m s` holds when, comparing `m` character-by-character against
`s`, a definite mismatch occurs before `s` is exhausted — so `m` can match no
extension of `s` either. -/
def mismatches : List Char → List Char → Bool
  | _, [] => false
  | [], _ => false
  | a :: as, b :: bs => if a == b then mismatches as bs else true

/-- `mismatchesAll m s` holds when `m` definitely mismatches at every start
position inside `s`. -/
def mismatchesAll (m : List Char) : List Char → Bool
  | [] => true
  | c :: cs => mismatches m (c :: cs) && mismatchesAll m cs

/-- The channel-id determination step of `get_channel_stats` (`app.py` lines
70-78): an identifier starting with `UC` is used directly as the channel ID;
anything else is passed to `get_channel_id_from_handle`, abstracted here as
the `lookup` oracle (`none` models a failed conversion, making the function
return `None`).  The boolean records whether the lookup call was made. -/
def get_channel_stats_channel_id (lookup : List Char → Option (List Char))
    (channel_identifier : List Char) : Option (List Char) × Bool :=
  if "UC".toList.isPrefixOf channel_identifier then
    (some channel_identifier, false)
  else
    match lookup channel_identifier with
    | none => (none, true)
    | some channel_id => (some channel_id, true)

/-- The canonical channel-ID shape described by the spec: the fixed
two-letter prefix `UC` followed by a fixed-length token (YouTube channel IDs
are 24 characters in total). -/
def isCanonicalChannelId (s : List Char) : Bool :=
  "UC".toList.isPrefixOf s && s.length == 24

/-- The upstream `snippet` object of a channels-endpoint item, with every
field the code reads; `none` models an absent key. -/
structure ApiSnippet where
  title : Option (List Char)
  thumbnailHighUrl : Option (List Char)
  description : Option (List Char)
  publishedAt : Option (List Char)
  customUrl : Option (List Char)
deriving DecidableEq, Repr

/-- The upstream `statistics` object; counts are modelled by their numeric
values (the code applies `int(...)` to the upstream strings), `none` models
an absent key. -/
structure ApiStatistics where
  subscriberCount : Option ℕ
  viewCount : Option ℕ
  videoCount : Option ℕ
deriving DecidableEq, Repr

/-- One item of the upstream channels response. -/
structure ApiItem where
  snippet : ApiSnippet
  statistics : ApiStatistics
deriving DecidableEq, Repr

/-- `format_date(date_str)` from `app.py` (lines 108-116): empty input gives
`"N/A"`; otherwise the `datetime` library parse-and-format is abstracted as
`isoFmt`, whose `none` models the `ValueError` that makes the function
return the input unchanged. -/
def format_date (isoFmt : List Char → Option (List Char))
    (date_str : List Char) : List Char :=
  if date_str = [] then "N/A".toList
  else
    match isoFmt date_str with
    | some s => s
    | none => date_str

/-- The result-construction step of `get_channel_stats` (`app.py` lines
90-102).  `.get(key, default)` accesses fall back to their defaults
(`0` for the counts, `""` for description and publishedAt), while the plain
subscript accesses `item["snippet"]["title"]` and
`item["snippet"]["thumbnails"]["high"]["url"]` raise `KeyError` when the key
is absent — modelled as `.error` carrying the missing key.  The `handle`
field is `"@" + customUrl.replace("@", "")` when `customUrl` is truthy,
else `None`. -/
def get_channel_stats_item (isoFmt : List Char → Option (List Char))
    (channel_id : List Char) (item : ApiItem) :
    Except (List Char) ChannelStats :=
  match item.snippet.title with
  | none => .error "title".toList
  | some t =>
    match item.snippet.thumbnailHighUrl with
    | none => .error "thumbnails".toList
    | some th =>
      .ok { title := t
            subscribers := item.statistics.subscriberCount.getD 0
            views := item.statistics.viewCount.getD 0
            videos := item.statistics.videoCount.getD 0
            thumbnail := th
            description := item.snippet.description.getD []
            published := format_date isoFmt (item.snippet.publishedAt.getD [])
            channel_id := channel_id
            handle :=
              match item.snippet.customUrl with
              | none => none
              | some cu =>
                if cu = [] then none
                else some ('@' :: cu.filter (fun c => c != '@')) }

/-- The per-video-average model's average views per video, exactly as both
the spec's formula and `index` compute it: `totalViews / max(videoCount, 1)`. -/
def perVideoAvgViews (s : ChannelStats) : ℚ :=
  (s.views : ℚ) / ((max s.videos 1 : ℕ) : ℚ)

/-- The per-video-average model's monthly views: `avgViewsPerVideo * 30`. -/
def perVideoMonthlyViews (s : ChannelStats) : ℚ := perVideoAvgViews s * 30

/-- Modelled from the spec: the subscriber-ratio average-activity model of
§4.4, which is absent from `app.py` — `avgViewsPerSub =
totalViews / max(subscribers, 1)`; `monthlyViews = subscribers *
avgViewsPerSub`. -/
def subscriberRatioMonthlyViews (s : ChannelStats) : ℚ :=
  (s.subscribers : ℚ) * ((s.views : ℚ) / ((max s.subscribers 1 : ℕ) : ℚ))

/-- Modelled from the spec: the yearly derivation as §4.4 words it, with the
monthly earnings retained at full precision internally — twelve times the
unrounded monthly earnings, rounded only for display. -/
def fullPrecisionYearlyEarnings (s : ChannelStats) (c p : ℚ) : ℚ :=
  round2 (perVideoMonthlyViews s * (p / 100) / 1000 * c * 12)

/-- A channel with `videoCount = 0` but a non-zero lifetime view count,
exercising the `max(videos, 1)` clamp. -/
def zeroVideosStats : ChannelStats :=
  { title := "Z".toList, subscribers := 1000, views := 100000, videos := 0,
    thumbnail := [], description := [], published := [], channel_id := [],
    handle := none }

/-- A channel whose per-video earnings have more than two decimal places
(13 views over 3 videos), separating the rounded-monthly and full-precision
yearly derivations. -/
def fractionalStats : ChannelStats :=
  { title := [], subscribers := 5, views := 13, videos := 3, thumbnail := [],
    description := [], published := [], channel_id := [], handle := none }

lemma pyInt_natCast (n : ℕ) : pyInt (n : ℚ) = n := by
  unfold pyInt
  rw [if_neg (not_lt.mpr (by positivity))]
  exact Int.floor_natCast n

lemma pyInt_of_nonneg {x : ℚ} (h : 0 ≤ x) : pyInt x = ⌊x⌋ := by
  unfold pyInt
  rw [if_neg (not_lt.mpr h)]

lemma floor_le_rhe (x : ℚ) : ⌊x⌋ ≤ rhe x := by
  unfold rhe
  split
  · split
    · exact le_refl _
    · exact le_of_lt (lt_add_one _)
  · rw [round_eq]
    exact Int.floor_mono (by linarith)

lemma rhe_le_floor_add_one (x : ℚ) : rhe x ≤ ⌊x⌋ + 1 := by
  unfold rhe
  split
  · split
    · exact le_of_lt (lt_add_one _)
    · exact le_refl _
  · rw [round_eq]
    have h1 : x < ⌊x⌋ + 1 := Int.lt_floor_add_one x
    have h2 : ⌊x + 1/2⌋ < ⌊x⌋ + 2 := by
      apply Int.floor_lt.mpr
      push_cast
      linarith
    omega

lemma rhe_mono {x y : ℚ} (h : x ≤ y) : rhe x ≤ rhe y := by
  rcases lt_or_eq_of_le (Int.floor_mono h) with hf | hf
  · calc rhe x ≤ ⌊x⌋ + 1 := rhe_le_floor_add_one x
      _ ≤ ⌊y⌋ := by omega
      _ ≤ rhe y := floor_le_rhe y
  · have hx0 : (⌊x⌋ : ℚ) + Int.fract x = x := Int.floor_add_fract x
    have hy0 : (⌊y⌋ : ℚ) + Int.fract y = y := Int.floor_add_fract y
    have hfr : Int.fract x ≤ Int.fract y := by
      rw [Int.fract, Int.fract, hf]
      linarith
    unfold rhe
    by_cases hx : Int.fract x = 1/2 <;> by_cases hy : Int.fract y = 1/2
    · have : x = y := by rw [← hx0, ← hy0, hx, hy, hf]
      simp [this, hf]
    · have hgt : 1/2 < Int.fract y := lt_of_le_of_ne (hx ▸ hfr) (Ne.symm hy)
      have hlt : Int.fract y < 1 := Int.fract_lt_one y
      have hr : round y = ⌊y⌋ + 1 := by
        rw [round_eq]
        refine Int.floor_eq_iff.mpr ⟨by push_cast; linarith, by push_cast; linarith⟩
      rw [if_pos hx, if_neg hy, hr, hf]
      split <;> omega
    · have hlt : Int.fract x < 1/2 := lt_of_le_of_ne (hy ▸ hfr) hx
      have hge : 0 ≤ Int.fract x := Int.fract_nonneg x
      have hr : round x = ⌊x⌋ := by
        rw [round_eq]
        refine Int.floor_eq_iff.mpr ⟨by linarith, by linarith⟩
      rw [if_neg hx, if_pos hy, hr, hf]
      split <;> omega
    · rw [if_neg hx, if_neg hy, round_eq, round_eq]
      exact Int.floor_mono (by linarith)

lemma rhe_intCast (n : ℤ) : rhe (n : ℚ) = n := by
  unfold rhe
  rw [Int.fract_intCast]
  norm_num

lemma round2_mono {x y : ℚ} (h : x ≤ y) : round2 x ≤ round2 y := by
  unfold round2
  have := rhe_mono (mul_le_mul_of_nonneg_right h (by norm_num : (0:ℚ) ≤ 100))
  have hc : ((rhe (x * 100) : ℤ) : ℚ) ≤ ((rhe (y * 100) : ℤ) : ℚ) := by exact_mod_cast this
  linarith

lemma round2_hundredth (n : ℤ) : round2 ((n : ℚ) / 100) = (n : ℚ) / 100 := by
  unfold round2
  rw [div_mul_cancel₀ _ (by norm_num : (100:ℚ) ≠ 0), rhe_intCast]

example : estimate_earnings 60000 (some 4) (some 80) = (192, none) := by
  norm_num [estimate_earnings, round2, rhe, Int.fract, round_eq]

example : estimate_earnings 1000 (some (-1)) (some 50) = (-1/2, none) := by
  norm_num [estimate_earnings, round2, rhe, Int.fract, round_eq]

example : round2 (104/1000) = 1/10 := by
  norm_num [round2, rhe, Int.fract, round_eq]

example :
    run_estimation sampleStats (some 4) (some 80) =
      .ok { monthly_views := 60000, earnings := 192, cpm := 4,
            monetized_pct := 80, daily_views := 2000,
            yearly_earnings := 2304 } := by
  norm_num [run_estimation, sampleStats, estimate_earnings, round2, rhe,
    Int.fract, round_eq, pyInt]

example : extract_channel_id "https://www.youtube.com/channel/UCabc123".toList
    = some "UCabc123".toList := by decide

example : extract_channel_id "https://youtube.com/@handle42".toList
    = some "handle42".toList := by decide

example : extract_channel_id "not a url".toList = none := by decide

lemma takeIdRun_eq_self {X : List Char} (h : ∀ c ∈ X, idChar c = true) :
    takeIdRun X = X := by
  induction X with
  | nil => rfl
  | cons c cs ih =>
    unfold takeIdRun
    rw [if_pos (h c (List.mem_cons_self c cs))]
    rw [ih (fun d hd => h d (List.mem_cons_of_mem c hd))]

lemma mem_of_isPrefixOf {m s : List Char} (h : m.isPrefixOf s = true)
    {c : Char} (hc : c ∈ m) : c ∈ s := by
  induction m generalizing s with
  | nil => exact absurd hc (List.not_mem_nil c)
  | cons a as ih =>
    cases s with
    | nil => simp [List.isPrefixOf] at h
    | cons b bs =>
      simp only [List.isPrefixOf, Bool.and_eq_true, beq_iff_eq] at h
      rcases List.mem_cons.mp hc with rfl | hc'
      · exact h.1 ▸ List.mem_cons_self b bs
      · exact List.mem_cons_of_mem b (ih h.2 hc')

/-- A pattern whose marker contains a character outside the identifier class
cannot match anywhere inside a pure identifier run. -/
lemma searchCapture_allId {m : List Char} {c₀ : Char} (hc₀ : c₀ ∈ m)
    (hbad : idChar c₀ = false) {s : List Char}
    (hs : ∀ c ∈ s, idChar c = true) : searchCapture m s = none := by
  induction s with
  | nil => rfl
  | cons c cs ih =>
    have hpre : m.isPrefixOf (c :: cs) = false := by
      cases hp : m.isPrefixOf (c :: cs) with
      | false => rfl
      | true =>
        have := hs c₀ (mem_of_isPrefixOf hp hc₀)
        rw [this] at hbad
        exact absurd hbad (by simp)
    rw [show searchCapture m (c :: cs) = searchCapture m cs by
      simp [searchCapture, hpre]]
    exact ih (fun d hd => hs d (List.mem_cons_of_mem c hd))

lemma isPrefixOf_append (m t : List Char) : m.isPrefixOf (m ++ t) = true := by
  induction m with
  | nil => simp
  | cons a as ih => simp [List.isPrefixOf_cons₂, ih]

lemma searchCapture_cons_pos {m : List Char} {c : Char} {cs : List Char}
    (hp : m.isPrefixOf (c :: cs) = true) {r : Char} {rs : List Char}
    (hr : takeIdRun ((c :: cs).drop m.length) = r :: rs) :
    searchCapture m (c :: cs) = some (r :: rs) := by
  simp [searchCapture, hp, hr]

lemma searchCapture_cons_neg {m : List Char} {c : Char} {cs : List Char}
    (hp : m.isPrefixOf (c :: cs) = false) :
    searchCapture m (c :: cs) = searchCapture m cs := by
  simp [searchCapture, hp]

/-- At the start of `marker ++ X` with `X` a non-empty identifier run, the
search succeeds immediately and captures exactly `X`. -/
lemma searchCapture_self (m : List Char) (hm : m ≠ []) {X : List Char}
    (hX : X ≠ []) (hid : ∀ c ∈ X, idChar c = true) :
    searchCapture m (m ++ X) = some X := by
  obtain ⟨a, as, rfl⟩ := List.exists_cons_of_ne_nil hm
  obtain ⟨x, xs, rfl⟩ := List.exists_cons_of_ne_nil hX
  rw [List.cons_append]
  have hp : (a :: as).isPrefixOf (a :: (as ++ x :: xs)) = true := by
    rw [← List.cons_append]
    exact isPrefixOf_append _ _
  have hr : takeIdRun ((a :: (as ++ x :: xs)).drop (a :: as).length) = x :: xs := by
    rw [← List.cons_append, List.drop_left]
    exact takeIdRun_eq_self hid
  exact searchCapture_cons_pos hp hr

lemma isPrefixOf_eq_false_of_mismatches {m pre : List Char}
    (h : mismatches m pre = true) (X : List Char) :
    m.isPrefixOf (pre ++ X) = false := by
  induction m generalizing pre with
  | nil =>
    cases pre <;> simp [mismatches] at h
  | cons a as ih =>
    cases pre with
    | nil => simp [mismatches] at h
    | cons b bs =>
      rw [List.cons_append, List.isPrefixOf_cons₂]
      by_cases hab : a = b
      · subst hab
        simp only [mismatches, beq_self_eq_true, if_pos] at h
        simp [ih h]
      · simp [hab]

lemma searchCapture_append {m : List Char} (pre t : List Char)
    (hall : mismatchesAll m pre = true) :
    searchCapture m (pre ++ t) = searchCapture m t := by
  induction pre with
  | nil => rfl
  | cons c cs ih =>
    simp only [mismatchesAll, Bool.and_eq_true] at hall
    rw [List.cons_append,
      searchCapture_cons_neg (by
        rw [← List.cons_append]
        exact isPrefixOf_eq_false_of_mismatches hall.1 t)]
    exact ih hall.2

lemma searchCapture_marker_id_run {m : List Char} (pre : List Char)
    {X : List Char} (hm : m ≠ []) (hX : X ≠ [])
    (hid : ∀ c ∈ X, idChar c = true) (hall : mismatchesAll m pre = true) :
    searchCapture m (pre ++ (m ++ X)) = some X := by
  rw [searchCapture_append pre (m ++ X) hall]
  exact searchCapture_self m hm hX hid

lemma searchCapture_no_marker {m : List Char} (pre : List Char)
    {c₀ : Char} (hc₀ : c₀ ∈ m) (hbad : idChar c₀ = false) {X : List Char}
    (hid : ∀ c ∈ X, idChar c = true) (hall : mismatchesAll m pre = true) :
    searchCapture m (pre ++ X) = none := by
  rw [searchCapture_append pre X hall]
  exact searchCapture_allId hc₀ hbad hid

lemma tryPatterns_cons_none {p : List Char} {ps : List (List Char)}
    {url : List Char} (h : searchCapture p url = none) :
    tryPatterns (p :: ps) url = tryPatterns ps url := by
  simp [tryPatterns, h]

lemma tryPatterns_cons_some {p : List Char} {ps : List (List Char)}
    {url v : List Char} (h : searchCapture p url = some v) :
    tryPatterns (p :: ps) url = some v := by
  simp [tryPatterns, h]

lemma extract_eq_tryPatterns (u : List Char) :
    extract_channel_id u =
      tryPatterns ["youtube.com/channel/".toList, "youtube.com/@".toList,
        "youtube.com/c/".toList, "youtube.com/user/".toList,
        "youtu.be/".toList] u := rfl

/-- **C7.** For every input string containing a recognized URL shape — any
prefix `pre`, then a marker (`youtube.com/channel/`, `youtube.com/@`,
`youtube.com/c/`, `youtube.com/user/` or `youtu.be/`), then a non-empty
identifier run `X` over `[a-zA-Z0-9_-]` — `extract_channel_id` returns
exactly the path segment `X`, provided the part of the string before the
marker matches no higher-priority pattern (the `mismatchesAll` hypotheses,
decidable for each concrete prefix).  The patterns are tried in a fixed
priority order with the channel-ID form first and the first successful
pattern winning, and a string matching no pattern yields `none`. -/
theorem extract_channel_id_spec :
    (∀ pre X : List Char, X ≠ [] → (∀ c ∈ X, idChar c = true) →
      ((mismatchesAll "youtube.com/channel/".toList pre = true →
        extract_channel_id (pre ++ ("youtube.com/channel/".toList ++ X))
          = some X) ∧
       (mismatchesAll "youtube.com/channel/".toList
          (pre ++ "youtube.com/@".toList) = true →
        mismatchesAll "youtube.com/@".toList pre = true →
        extract_channel_id (pre ++ ("youtube.com/@".toList ++ X))
          = some X) ∧
       (mismatchesAll "youtube.com/channel/".toList
          (pre ++ "youtube.com/c/".toList) = true →
        mismatchesAll "youtube.com/@".toList
          (pre ++ "youtube.com/c/".toList) = true →
        mismatchesAll "youtube.com/c/".toList pre = true →
        extract_channel_id (pre ++ ("youtube.com/c/".toList ++ X))
          = some X) ∧
       (mismatchesAll "youtube.com/channel/".toList
          (pre ++ "youtube.com/user/".toList) = true →
        mismatchesAll "youtube.com/@".toList
          (pre ++ "youtube.com/user/".toList) = true →
        mismatchesAll "youtube.com/c/".toList
          (pre ++ "youtube.com/user/".toList) = true →
        mismatchesAll "youtube.com/user/".toList pre = true →
        extract_channel_id (pre ++ ("youtube.com/user/".toList ++ X))
          = some X) ∧
       (mismatchesAll "youtube.com/channel/".toList
          (pre ++ "youtu.be/".toList) = true →
        mismatchesAll "youtube.com/@".toList
          (pre ++ "youtu.be/".toList) = true →
        mismatchesAll "youtube.com/c/".toList
          (pre ++ "youtu.be/".toList) = true →
        mismatchesAll "youtube.com/user/".toList
          (pre ++ "youtu.be/".toList) = true →
        mismatchesAll "youtu.be/".toList pre = true →
        extract_channel_id (pre ++ ("youtu.be/".toList ++ X))
          = some X))) ∧
    (∀ url v, searchCapture "youtube.com/channel/".toList url = some v →
      extract_channel_id url = some v) ∧
    (∀ url, (∀ p ∈ patterns, searchCapture p url = none) →
      extract_channel_id url = none) := by
  have hdot1 : ('.' ∈ "youtube.com/channel/".toList) := by decide
  have hdot2 : ('.' ∈ "youtube.com/@".toList) := by decide
  have hdot3 : ('.' ∈ "youtube.com/c/".toList) := by decide
  have hdot4 : ('.' ∈ "youtube.com/user/".toList) := by decide
  have hbad : idChar '.' = false := by decide
  refine ⟨?_, ?_, ?_⟩
  · intro pre X hX hid
    refine ⟨?_, ?_, ?_, ?_, ?_⟩
    · intro ha
      rw [extract_eq_tryPatterns, tryPatterns_cons_some
        (searchCapture_marker_id_run pre (by decide) hX hid ha)]
    · intro h1 ha
      have f1 : searchCapture "youtube.com/channel/".toList
          (pre ++ ("youtube.com/@".toList ++ X)) = none := by
        rw [← List.append_assoc]
        exact searchCapture_no_marker _ hdot1 hbad hid h1
      rw [extract_eq_tryPatterns, tryPatterns_cons_none f1,
        tryPatterns_cons_some
          (searchCapture_marker_id_run pre (by decide) hX hid ha)]
    · intro h1 h2 ha
      have f1 : searchCapture "youtube.com/channel/".toList
          (pre ++ ("youtube.com/c/".toList ++ X)) = none := by
        rw [← List.append_assoc]
        exact searchCapture_no_marker _ hdot1 hbad hid h1
      have f2 : searchCapture "youtube.com/@".toList
          (pre ++ ("youtube.com/c/".toList ++ X)) = none := by
        rw [← List.append_assoc]
        exact searchCapture_no_marker _ hdot2 hbad hid h2
      rw [extract_eq_tryPatterns, tryPatterns_cons_none f1,
        tryPatterns_cons_none f2, tryPatterns_cons_some
          (searchCapture_marker_id_run pre (by decide) hX hid ha)]
    · intro h1 h2 h3 ha
      have f1 : searchCapture "youtube.com/channel/".toList
          (pre ++ ("youtube.com/user/".toList ++ X)) = none := by
        rw [← List.append_assoc]
        exact searchCapture_no_marker _ hdot1 hbad hid h1
      have f2 : searchCapture "youtube.com/@".toList
          (pre ++ ("youtube.com/user/".toList ++ X)) = none := by
        rw [← List.append_assoc]
        exact searchCapture_no_marker _ hdot2 hbad hid h2
      have f3 : searchCapture "youtube.com/c/".toList
          (pre ++ ("youtube.com/user/".toList ++ X)) = none := by
        rw [← List.append_assoc]
        exact searchCapture_no_marker _ hdot3 hbad hid h3
      rw [extract_eq_tryPatterns, tryPatterns_cons_none f1,
        tryPatterns_cons_none f2, tryPatterns_cons_none f3,
        tryPatterns_cons_some
          (searchCapture_marker_id_run pre (by decide) hX hid ha)]
    · intro h1 h2 h3 h4 ha
      have f1 : searchCapture "youtube.com/channel/".toList
          (pre ++ ("youtu.be/".toList ++ X)) = none := by
        rw [← List.append_assoc]
        exact searchCapture_no_marker _ hdot1 hbad hid h1
      have f2 : searchCapture "youtube.com/@".toList
          (pre ++ ("youtu.be/".toList ++ X)) = none := by
        rw [← List.append_assoc]
        exact searchCapture_no_marker _ hdot2 hbad hid h2
      have f3 : searchCapture "youtube.com/c/".toList
          (pre ++ ("youtu.be/".toList ++ X)) = none := by
        rw [← List.append_assoc]
        exact searchCapture_no_marker _ hdot3 hbad hid h3
      have f4 : searchCapture "youtube.com/user/".toList
          (pre ++ ("youtu.be/".toList ++ X)) = none := by
        rw [← List.append_assoc]
        exact searchCapture_no_marker _ hdot4 hbad hid h4
      rw [extract_eq_tryPatterns, tryPatterns_cons_none f1,
        tryPatterns_cons_none f2, tryPatterns_cons_none f3,
        tryPatterns_cons_none f4, tryPatterns_cons_some
          (searchCapture_marker_id_run pre (by decide) hX hid ha)]
  · intro url v h
    rw [extract_eq_tryPatterns, tryPatterns_cons_some h]
  · intro url h
    have g1 := h "youtube.com/channel/".toList (by simp [patterns])
    have g2 := h "youtube.com/@".toList (by simp [patterns])
    have g3 := h "youtube.com/c/".toList (by simp [patterns])
    have g4 := h "youtube.com/user/".toList (by simp [patterns])
    have g5 := h "youtu.be/".toList (by simp [patterns])
    rw [extract_eq_tryPatterns, tryPatterns_cons_none g1,
      tryPatterns_cons_none g2, tryPatterns_cons_none g3,
      tryPatterns_cons_none g4, tryPatterns_cons_none g5]
    rfl

/-- Witness for C7 at concrete inputs: a full channel URL, a full handle
URL, and a non-URL string. -/
theorem extract_channel_id_spec_witness :
    extract_channel_id ("https://www.".toList ++
        ("youtube.com/channel/".toList ++ "UCabc123".toList))
      = some "UCabc123".toList ∧
    extract_channel_id ("https://".toList ++
        ("youtube.com/@".toList ++ "somehandle".toList))
      = some "somehandle".toList ∧
    extract_channel_id "not a url".toList = none :=
  ⟨(extract_channel_id_spec.1 "https://www.".toList "UCabc123".toList
      (by decide) (by decide)).1 (by decide),
   (extract_channel_id_spec.1 "https://".toList "somehandle".toList
      (by decide) (by decide)).2.1 (by decide) (by decide),
   extract_channel_id_spec.2.2 "not a url".toList (by decide)⟩

/-- **C8.** An identifier already matching the canonical channel-ID shape is
returned unchanged with no handle-lookup network call, for any behaviour of
the upstream lookup; and whenever the lookup call is made, the identifier
did not match the canonical shape. -/
theorem get_channel_stats_channel_id_spec :
    (∀ (lookup : List Char → Option (List Char)) (s : List Char),
      isCanonicalChannelId s = true →
      get_channel_stats_channel_id lookup s = (some s, false)) ∧
    (∀ (lookup : List Char → Option (List Char)) (s : List Char),
      (get_channel_stats_channel_id lookup s).2 = true →
      isCanonicalChannelId s = false) := by
  constructor
  · intro lookup s h
    have hp : "UC".toList.isPrefixOf s = true := by
      unfold isCanonicalChannelId at h
      cases hq : "UC".toList.isPrefixOf s with
      | true => rfl
      | false =>
        rw [hq] at h
        simp at h
    unfold get_channel_stats_channel_id
    rw [if_pos hp]
  · intro lookup s h
    cases hp : "UC".toList.isPrefixOf s with
    | true =>
      exfalso
      unfold get_channel_stats_channel_id at h
      rw [if_pos hp] at h
      simp at h
    | false =>
      unfold isCanonicalChannelId
      rw [hp]
      rfl

/-- Witness for C8: a canonically shaped ID passes through unchanged without
a lookup, and a handle that triggers the lookup is not canonically shaped. -/
theorem get_channel_stats_channel_id_spec_witness :
    get_channel_stats_channel_id (fun _ => none)
        "UCabcdefghijklmnopqrstuv".toList
      = (some "UCabcdefghijklmnopqrstuv".toList, false) ∧
    isCanonicalChannelId "somehandle".toList = false :=
  ⟨get_channel_stats_channel_id_spec.1 (fun _ => none)
      "UCabcdefghijklmnopqrstuv".toList (by decide),
   get_channel_stats_channel_id_spec.2 (fun _ => some "UCx".toList)
      "somehandle".toList (by decide)⟩

/-- **C9 (amended).** For every upstream item the fetcher accepts, missing
numeric fields default to `0` and a missing description defaults to the
empty string; but an item with the thumbnail key absent is rejected with a
`KeyError` on `thumbnails` (when the title is present), not defaulted. -/
theorem get_channel_stats_item_defaults :
    (∀ (isoFmt : List Char → Option (List Char)) (cid : List Char)
        (item : ApiItem) (stats : ChannelStats),
      get_channel_stats_item isoFmt cid item = .ok stats →
      ((item.statistics.subscriberCount = none → stats.subscribers = 0) ∧
       (item.statistics.viewCount = none → stats.views = 0) ∧
       (item.statistics.videoCount = none → stats.videos = 0) ∧
       (item.snippet.description = none → stats.description = []))) ∧
    (∀ (isoFmt : List Char → Option (List Char)) (cid : List Char)
        (item : ApiItem) (t : List Char),
      item.snippet.title = some t →
      item.snippet.thumbnailHighUrl = none →
      get_channel_stats_item isoFmt cid item = .error "thumbnails".toList) := by
  constructor
  · intro isoFmt cid item stats h
    unfold get_channel_stats_item at h
    cases ht : item.snippet.title with
    | none =>
      rw [ht] at h
      exact absurd h (by simp)
    | some t =>
      rw [ht] at h
      cases hth : item.snippet.thumbnailHighUrl with
      | none =>
        rw [hth] at h
        exact absurd h (by simp)
      | some th =>
        rw [hth] at h
        rw [Except.ok.injEq] at h
        subst h
        refine ⟨fun hs => ?_, fun hv => ?_, fun hd => ?_, fun hde => ?_⟩
        · simp [hs]
        · simp [hv]
        · simp [hd]
        · simp [hde]
  · intro isoFmt cid item t ht hth
    unfold get_channel_stats_item
    rw [ht, hth]

/-- Witness for C9: an accepted item missing all three counts and the
description yields zeros and the empty string. -/
theorem get_channel_stats_item_defaults_witness :
    (ChannelStats.subscribers
        { title := "T".toList, subscribers := 0, views := 0, videos := 0,
          thumbnail := "U".toList, description := [],
          published := "N/A".toList, channel_id := "UCx".toList,
          handle := none } = 0) ∧
    get_channel_stats_item (fun _ => none) "UCx".toList
        ⟨⟨some "T".toList, none, some "d".toList, none, none⟩,
         ⟨some 1, some 2, some 3⟩⟩
      = .error "thumbnails".toList :=
  ⟨(get_channel_stats_item_defaults.1 (fun _ => none) "UCx".toList
      ⟨⟨some "T".toList, some "U".toList, none, none, none⟩, ⟨none, none, none⟩⟩
      _ rfl).1 rfl,
   get_channel_stats_item_defaults.2 (fun _ => none) "UCx".toList
      ⟨⟨some "T".toList, none, some "d".toList, none, none⟩,
       ⟨some 1, some 2, some 3⟩⟩
      "T".toList rfl rfl⟩

/-- Counterexample to C9 as stated: a response item that is complete except
for the missing thumbnail makes the fetcher raise (a `KeyError`, modelled as
`.error "thumbnails"`) instead of defaulting the thumbnail to the empty
string. -/
theorem get_channel_stats_item_missing_thumbnail_cex :
    get_channel_stats_item (fun _ => none) "UCabc123".toList
        ⟨⟨some "Title".toList, none, some "desc".toList,
          some "2020-01-01T00:00:00Z".toList, some "@chan".toList⟩,
         ⟨some 1000, some 100000, some 50⟩⟩
      = .error "thumbnails".toList := rfl

/-- Inversion of a successful run of the pipeline: the inputs parsed, the
estimator reported no error, and every field of the result record is
determined by the code's formulas. -/
lemma run_estimation_ok {s : ChannelStats} {cpm pct : Option ℚ}
    {r : EstimationResult} (h : run_estimation s cpm pct = .ok r) :
    ∃ cv pv,
      cpm = some cv ∧ pct = some pv ∧
      estimate_earnings ((s.views : ℚ) / ((max s.videos 1 : ℕ) : ℚ) * 30)
          (some cv) (some pv) = (r.earnings, none) ∧
      r = { monthly_views :=
              pyInt ((s.views : ℚ) / ((max s.videos 1 : ℕ) : ℚ) * 30)
            earnings := r.earnings
            cpm := cv
            monetized_pct := pv
            daily_views := pyInt ((s.views : ℚ) / ((max s.videos 1 : ℕ) : ℚ))
            yearly_earnings := round2 (r.earnings * 12) } := by
  cases cpm with
  | none =>
    exact absurd h (by simp [run_estimation])
  | some cv =>
    cases pct with
    | none =>
      exact absurd h (by simp [run_estimation])
    | some pv =>
      refine ⟨cv, pv, rfl, rfl, ?_⟩
      rcases hee : estimate_earnings
          ((s.views : ℚ) / ((max s.videos 1 : ℕ) : ℚ) * 30)
          (some cv) (some pv) with ⟨e, err⟩
      simp only [run_estimation, hee] at h
      cases err with
      | some msg => exact absurd h (by simp)
      | none =>
        rw [Except.ok.injEq] at h
        subst h
        exact ⟨rfl, rfl⟩

lemma estimate_earnings_ok {v c p e : ℚ}
    (h : estimate_earnings v (some c) (some p) = (e, none)) :
    e = round2 (v * (p / 100) / 1000 * c) := by
  simp only [estimate_earnings] at h
  by_cases hp : 0 ≤ p ∧ p ≤ 100
  · rw [if_pos hp, Prod.mk.injEq] at h
    exact h.1.symm
  · rw [if_neg hp, Prod.mk.injEq] at h
    exact absurd h.2 (by simp)

lemma round2_zero : round2 (0 : ℚ) = 0 := by
  simpa using round2_hundredth 0

lemma round2_round2_mul12 (x : ℚ) :
    round2 (round2 x * 12) = round2 x * 12 := by
  have h : round2 x * 12 = ((rhe (x * 100) * 12 : ℤ) : ℚ) / 100 := by
    unfold round2
    push_cast
    ring
  rw [h, round2_hundredth]

/-- **C1 (amended).** The pipeline implements only the per-video-average
model: for every input, a successful run reports the per-video monthly views
and per-video daily average; there is no model-selection argument, and no
run computes the subscriber-ratio formula (see the counterexample). -/
theorem run_estimation_per_video_only :
    ∀ (s : ChannelStats) (cpm pct : Option ℚ) (r : EstimationResult),
      run_estimation s cpm pct = .ok r →
      r.monthly_views = pyInt (perVideoMonthlyViews s) ∧
      r.daily_views = pyInt (perVideoAvgViews s) := by
  intro s cpm pct r h
  obtain ⟨cv, pv, -, -, -, hr⟩ := run_estimation_ok h
  constructor
  · rw [hr]
    rfl
  · rw [hr]
    rfl

/-- Witness for C1 (amended) at the sample statistics. -/
theorem run_estimation_per_video_only_witness :
    (60000 : ℤ) = pyInt (perVideoMonthlyViews sampleStats) ∧
    (2000 : ℤ) = pyInt (perVideoAvgViews sampleStats) := by
  have h : run_estimation sampleStats (some 4) (some 80) =
      .ok ⟨60000, 192, 4, 80, 2000, 2304⟩ := by
    norm_num [run_estimation, sampleStats, estimate_earnings, round2, rhe,
      Int.fract, round_eq, pyInt]
  exact run_estimation_per_video_only sampleStats (some 4) (some 80) _ h

/-- Counterexample to C1 as stated: on the spec's own sample statistics the
pipeline yields monthly views 60000 (the per-video value), while the
subscriber-ratio model demands 100000 — no way of running the estimator
produces the subscriber-ratio figure, so the model is not selectable. -/
theorem run_estimation_no_subscriber_ratio_cex :
    (run_estimation sampleStats (some 4) (some 80)).toOption.map
        EstimationResult.monthly_views = some 60000 ∧
    subscriberRatioMonthlyViews sampleStats = 100000 ∧
    ((60000 : ℚ) ≠ 100000) := by
  refine ⟨?_, ?_, by norm_num⟩
  · norm_num [run_estimation, sampleStats, estimate_earnings, round2, rhe,
      Int.fract, round_eq, pyInt, Except.toOption]
  · norm_num [subscriberRatioMonthlyViews, sampleStats]

/-- **C2.** On stats `{subs:1000, views:100000, videos:50}` with `cpm = 4.0`
and `monetizedPercent = 80`, the per-video estimation yields
`avgViewsPerVideo = 2000`, `monthlyViews = 60000`,
`monetizedViews = 48000`, `earnings = 192.00` and
`yearlyEarnings = 2304.00`. -/
theorem run_estimation_sample_scenario :
    run_estimation sampleStats (some 4) (some 80) =
      .ok { monthly_views := 60000, earnings := 192, cpm := 4,
            monetized_pct := 80, daily_views := 2000,
            yearly_earnings := 2304 } ∧
    perVideoAvgViews sampleStats = 2000 ∧
    perVideoMonthlyViews sampleStats = 60000 ∧
    perVideoMonthlyViews sampleStats * (80 / 100) = 48000 := by
  refine ⟨?_, ?_, ?_, ?_⟩ <;>
    norm_num [run_estimation, sampleStats, estimate_earnings, round2, rhe,
      Int.fract, round_eq, pyInt, perVideoAvgViews, perVideoMonthlyViews]

/-- **C3 (amended).** With `videoCount = 0` the divisor clamps to 1, so the
per-video model reports `monthlyViews = totalViews * 30`; this is `0` only
when the channel has no views at all, not regardless of the view count. -/
theorem run_estimation_zero_videos :
    ∀ (s : ChannelStats) (cpm pct : Option ℚ) (r : EstimationResult),
      s.videos = 0 → run_estimation s cpm pct = .ok r →
      r.monthly_views = (s.views : ℤ) * 30 ∧
      (s.views = 0 → r.monthly_views = 0) := by
  intro s cpm pct r hv h
  obtain ⟨cv, pv, -, -, -, hr⟩ := run_estimation_ok h
  have hm : r.monthly_views =
      pyInt ((s.views : ℚ) / ((max s.videos 1 : ℕ) : ℚ) * 30) := by
    rw [hr]
  rw [hv] at hm
  have hq : (s.views : ℚ) / ((max 0 1 : ℕ) : ℚ) * 30 = ((s.views * 30 : ℕ) : ℚ) := by
    push_cast
    norm_num
  rw [hq, pyInt_natCast] at hm
  constructor
  · rw [hm]
    push_cast
    ring
  · intro h0
    rw [hm, h0]
    norm_num

/-- Witness for C3 (amended) at the concrete zero-video channel. -/
theorem run_estimation_zero_videos_witness :
    zeroVideosStats.videos = 0 ∧
    (3000000 : ℤ) = (zeroVideosStats.views : ℤ) * 30 := by
  have h : run_estimation zeroVideosStats (some 4) (some 80) =
      .ok ⟨3000000, 9600, 4, 80, 100000, 115200⟩ := by
    norm_num [run_estimation, zeroVideosStats, estimate_earnings, round2, rhe,
      Int.fract, round_eq, pyInt]
  exact ⟨rfl,
    (run_estimation_zero_videos zeroVideosStats (some 4) (some 80) _ rfl h).1⟩

/-- Counterexample to C3 as stated: a channel with `videoCount = 0` and
100000 lifetime views gets `monthlyViews = 3000000`, not `0`. -/
theorem run_estimation_zero_videos_cex :
    (run_estimation zeroVideosStats (some 4) (some 80)).toOption.map
        EstimationResult.monthly_views = some 3000000 ∧
    ((3000000 : ℤ) ≠ 0) := by
  refine ⟨?_, by decide⟩
  norm_num [run_estimation, zeroVideosStats, estimate_earnings, round2, rhe,
    Int.fract, round_eq, pyInt, Except.toOption]

/-- **C4 (amended).** The estimator fails exactly on inputs its validation
rejects: a percentage outside `[0,100]` (so `150` fails) yields the
range-error message; a CPM (or percentage) on which `float` raises yields
the conversion-error message; every in-range percentage with a parseable CPM
succeeds — including non-positive CPM values, which the code does *not*
reject — and `monetizedPercent = 0` succeeds with earnings `0`. -/
theorem estimate_earnings_validation :
    ∀ (v c p : ℚ),
      ((p < 0 ∨ 100 < p) →
        estimate_earnings v (some c) (some p) = (0, some pctRangeMsg)) ∧
      ((estimate_earnings v none (some p)).2 = some floatParseMsg) ∧
      ((estimate_earnings v (some c) none).2 = some floatParseMsg) ∧
      (0 ≤ p → p ≤ 100 → (estimate_earnings v (some c) (some p)).2 = none) ∧
      ((estimate_earnings v (some c) (some 0)).1 = 0) := by
  intro v c p
  refine ⟨?_, rfl, rfl, ?_, ?_⟩
  · intro hp
    simp only [estimate_earnings]
    rw [if_neg (by rintro ⟨h1, h2⟩; rcases hp with h | h <;> linarith)]
  · intro h1 h2
    simp only [estimate_earnings]
    rw [if_pos ⟨h1, h2⟩]
  · simp only [estimate_earnings]
    rw [if_pos ⟨le_refl (0:ℚ), by norm_num⟩]
    have hz : v * ((0:ℚ) / 100) / 1000 * c = 0 := by ring
    show round2 (v * ((0:ℚ) / 100) / 1000 * c) = 0
    rw [hz, round2_zero]

/-- Witness for C4 (amended): `monetizedPercent = 150` fails with the range
message; `monetizedPercent = 0` succeeds with earnings `0`. -/
theorem estimate_earnings_validation_witness :
    estimate_earnings 60000 (some 4) (some 150) = (0, some pctRangeMsg) ∧
    (estimate_earnings 60000 (some 4) (some 0)).1 = 0 ∧
    (estimate_earnings 60000 (some 4) (some 0)).2 = none :=
  ⟨(estimate_earnings_validation 60000 4 150).1 (Or.inr (by norm_num)),
   (estimate_earnings_validation 60000 4 0).2.2.2.2,
   (estimate_earnings_validation 60000 4 0).2.2.2.1 (by norm_num) (by norm_num)⟩

/-- Counterexample to C4 as stated: the non-positive CPM `-1` is *not*
rejected — the estimator returns earnings `-0.50` with no error, instead of
failing with an invalid-CPM error. -/
theorem estimate_earnings_nonpositive_cpm_cex :
    estimate_earnings 1000 (some (-1)) (some 50) = (-1/2, none) ∧
    ((-1 : ℚ) ≤ 0) := by
  constructor
  · norm_num [estimate_earnings, round2, rhe, Int.fract, round_eq]
  · norm_num

/-- **C5.** For a fixed non-negative view count and fixed positive CPM, the
estimated earnings are monotone in the monetized percentage over `[0,100]`. -/
theorem estimate_earnings_monotone_pct :
    ∀ (v c p₁ p₂ : ℚ), 0 ≤ v → 0 < c → 0 ≤ p₁ → p₁ ≤ p₂ → p₂ ≤ 100 →
      (estimate_earnings v (some c) (some p₁)).1 ≤
        (estimate_earnings v (some c) (some p₂)).1 := by
  intro v c p₁ p₂ hv hc h1 h12 h2
  simp only [estimate_earnings]
  rw [if_pos ⟨h1, le_trans h12 h2⟩, if_pos ⟨le_trans h1 h12, h2⟩]
  show round2 (v * (p₁ / 100) / 1000 * c) ≤ round2 (v * (p₂ / 100) / 1000 * c)
  apply round2_mono
  have e1 : p₁ / 100 ≤ p₂ / 100 := by linarith
  have e2 : v * (p₁ / 100) ≤ v * (p₂ / 100) := mul_le_mul_of_nonneg_left e1 hv
  have e3 : v * (p₁ / 100) / 1000 ≤ v * (p₂ / 100) / 1000 := by linarith
  exact mul_le_mul_of_nonneg_right e3 hc.le

/-- Witness for C5: raising the percentage from 40 to 80 does not decrease
the estimate. -/
theorem estimate_earnings_monotone_pct_witness :
    (estimate_earnings 60000 (some 4) (some 40)).1 ≤
      (estimate_earnings 60000 (some 4) (some 80)).1 :=
  estimate_earnings_monotone_pct 60000 4 40 80 (by norm_num) (by norm_num)
    (by norm_num) (by norm_num) (by norm_num)

/-- **C6 (amended).** On every successful run the reported yearly earnings
equal exactly twelve times the reported monthly earnings — because the
yearly figure is derived from the already 2-decimal-rounded monthly
earnings, not from a full-precision internal value (see the
counterexample). -/
theorem run_estimation_yearly_relation :
    ∀ (s : ChannelStats) (cpm pct : Option ℚ) (r : EstimationResult),
      run_estimation s cpm pct = .ok r →
      r.yearly_earnings = r.earnings * 12 := by
  intro s cpm pct r h
  obtain ⟨cv, pv, -, -, hee, hr⟩ := run_estimation_ok h
  have he : r.earnings =
      round2 ((s.views : ℚ) / ((max s.videos 1 : ℕ) : ℚ) * 30 * (pv / 100)
        / 1000 * cv) :=
    estimate_earnings_ok hee
  have hy : r.yearly_earnings = round2 (r.earnings * 12) := by rw [hr]
  rw [hy, he, round2_round2_mul12]

/-- Witness for C6 (amended): on the sample scenario, 2304 = 192 × 12. -/
theorem run_estimation_yearly_relation_witness :
    (2304 : ℚ) = 192 * 12 := by
  have h : run_estimation sampleStats (some 4) (some 80) =
      .ok ⟨60000, 192, 4, 80, 2000, 2304⟩ := by
    norm_num [run_estimation, sampleStats, estimate_earnings, round2, rhe,
      Int.fract, round_eq, pyInt]
  exact run_estimation_yearly_relation sampleStats (some 4) (some 80) _ h

/-- Counterexample to C6 as stated: the code derives the yearly figure from
the *rounded* monthly earnings (0.10 → 1.20), while the spec's full-precision
derivation demands 0.104 × 12 rounded, i.e. 1.25. -/
theorem run_estimation_yearly_cex :
    (run_estimation fractionalStats (some 1) (some 80)).toOption.map
        EstimationResult.yearly_earnings = some (6/5) ∧
    fullPrecisionYearlyEarnings fractionalStats 1 80 = 5/4 ∧
    ((6/5 : ℚ) ≠ 5/4) := by
  refine ⟨?_, ?_, by norm_num⟩
  · norm_num [run_estimation, fractionalStats, estimate_earnings, round2, rhe,
      Int.fract, round_eq, pyInt, Except.toOption]
  · norm_num [fullPrecisionYearlyEarnings, perVideoMonthlyViews,
      perVideoAvgViews, fractionalStats, round2, rhe, Int.fract, round_eq]

/-- **C10.** Whenever `estimate_earnings` reports an error, the earnings
value returned beside it is exactly `0`. -/
theorem estimate_earnings_error_zero :
    ∀ (v : ℚ) (cpm pct : Option ℚ) (e : ℚ) (msg : List Char),
      estimate_earnings v cpm pct = (e, some msg) → e = 0 := by
  intro v cpm pct e msg h
  cases cpm with
  | none =>
    simp only [estimate_earnings, Prod.mk.injEq] at h
    exact h.1.symm
  | some c =>
    cases pct with
    | none =>
      simp only [estimate_earnings, Prod.mk.injEq] at h
      exact h.1.symm
    | some p =>
      simp only [estimate_earnings] at h
      by_cases hp : 0 ≤ p ∧ p ≤ 100
      · rw [if_pos hp, Prod.mk.injEq] at h
        exact absurd h.2 (by simp)
      · rw [if_neg hp, Prod.mk.injEq] at h
        exact h.1.symm

/-- Witness for C10 at the failing percentage 150. -/
theorem estimate_earnings_error_zero_witness :
    estimate_earnings 60000 (some 4) (some 150) = (0, some pctRangeMsg) ∧
    (0 : ℚ) = 0 := by
  have h : estimate_earnings 60000 (some 4) (some 150) =
      (0, some pctRangeMsg) := by
    norm_num [estimate_earnings]
  exact ⟨h, estimate_earnings_error_zero 60000 (some 4) (some 150) 0
    pctRangeMsg h⟩
